import Mathlib

/-!
Shallow embedding of the street-network / intervention-simulator core of the
pedestrian-safety-mapper repository (scripts/street_network.py and
scripts/intervention_simulator.py), together with theorems settling the
frozen claims about it.

Conventions of the embedding:
* Python floats are modelled as exact rationals (`ℚ`) for stored attribute
  data; the geometric distance computation, which uses `math.cos` and
  `math.sqrt`, is modelled over `ℝ`.
* Python dicts (insertion ordered) are modelled as association lists; a dict
  assignment `d[k] = v` replaces in place when the key exists and appends
  otherwise.
* Mutation of an object is modelled by functional record update; Python's
  `copy.deepcopy` is the identity on values.
* A Python exception (TypeError / IndexError escaping a call) is modelled by
  `Option.none` in the result of the function that would raise.
-/

namespace PedSafety

/-- A scalar Python value, as stored in crash-record dicts and scenario
filter dicts. -/
inductive PyScalar where
  | pynone : PyScalar
  | pybool (b : Bool) : PyScalar
  | pyint (n : Int) : PyScalar
  | pyfloat (q : ℚ) : PyScalar
  | pystr (s : String) : PyScalar
  deriving DecidableEq, Repr

/-- A value appearing on the right of a scenario filter entry: either a
scalar or a list of scalars. -/
inductive FilterVal where
  | scalar (v : PyScalar) : FilterVal
  | vlist (l : List PyScalar) : FilterVal
  deriving DecidableEq, Repr

/-- The value of a dataclass attribute as seen by `getattr` in the filter
matcher: the typed fields of the node/edge dataclasses. -/
inductive AttrVal where
  | abool (b : Bool) : AttrVal
  | aint (n : Int) : AttrVal
  | afloat (q : ℚ) : AttrVal
  | astr (s : String) : AttrVal
  | astrlist (l : List String) : AttrVal
  deriving DecidableEq, Repr

/-- Python `isinstance(v, (int, float))`; `bool` is a subclass of `int`. -/
def pyIsNum : PyScalar → Bool
  | .pybool _ => true
  | .pyint _ => true
  | .pyfloat _ => true
  | _ => false

/-- Numeric value of a scalar Python value (`True = 1`, `False = 0`). -/
def pyToQ : PyScalar → Option ℚ
  | .pybool b => some (if b then 1 else 0)
  | .pyint n => some (n : ℚ)
  | .pyfloat q => some q
  | _ => none

/-- Numeric value of an attribute value, when it is numeric. -/
def attrToQ : AttrVal → Option ℚ
  | .abool b => some (if b then 1 else 0)
  | .aint n => some (n : ℚ)
  | .afloat q => some q
  | _ => none

/-- Python `==` between an attribute value and a scalar: numbers compare by
value (bools included), strings by equality, mismatched kinds are unequal. -/
def pyEq (a : AttrVal) (v : PyScalar) : Bool :=
  match attrToQ a, pyToQ v with
  | some qa, some qv => qa = qv
  | _, _ =>
    match a, v with
    | .astr sa, .pystr sv => sa = sv
    | _, _ => false

/-- Python truthiness of `d.get(k)` (where a missing key gives `None`). -/
def py_truthy : Option PyScalar → Bool
  | none => false
  | some .pynone => false
  | some (.pybool b) => b
  | some (.pyint n) => n ≠ 0
  | some (.pyfloat q) => q ≠ 0
  | some (.pystr s) => s ≠ ""

/-- `d.get(k)` on an insertion-ordered dict modelled as an assoc list. -/
def dictGet {α : Type} (k : String) (d : List (String × α)) : Option α :=
  (d.find? (fun p => p.1 = k)).map Prod.snd

/-- `d[k] = v`: replace in place when present, append otherwise. -/
def dictInsert {α : Type} (k : String) (v : α) (d : List (String × α)) :
    List (String × α) :=
  if d.any (fun p => p.1 = k) then
    d.map (fun p => if p.1 = k then (k, v) else p)
  else d ++ [(k, v)]

/-- An intersection in the street network (dataclass `IntersectionNode`). -/
structure IntersectionNode where
  id : String
  lat : ℚ
  lon : ℚ
  intersection_type : String := "unknown"
  has_signals : Bool := false
  has_pedestrian_signals : Bool := false
  has_leading_pedestrian_interval : Bool := false
  has_curb_extensions : Bool := false
  has_refuge_island : Bool := false
  has_raised_crossing : Bool := false
  crossing_count : Int := 0
  leg_count : Int := 4
  crash_count : Int := 0
  crash_fatality_count : Int := 0
  risk_score : ℚ := 0
  connected_edges : List String := []
  deriving DecidableEq, Repr

/-- A street segment between intersections (dataclass `StreetEdge`). -/
structure StreetEdge where
  id : String
  from_node : String
  to_node : String
  name : String := "Unknown Street"
  length_meters : ℚ := 0
  road_class : String := "unknown"
  functional_class : Int := -1
  lanes : Int := 2
  speed_limit_mph : Int := 25
  posted_speed_mph : Int := 25
  design_speed_mph : Int := 30
  lane_width_feet : ℚ := 12
  has_sidewalk_north : Bool := false
  has_sidewalk_south : Bool := false
  sidewalk_width_feet : ℚ := 0
  has_buffer : Bool := false
  buffer_width_feet : ℚ := 0
  has_street_trees : Bool := false
  has_bike_lane : Bool := false
  bike_lane_protected : Bool := false
  lighting_quality : String := "none"
  lighting_spacing_feet : ℚ := 0
  land_use : String := "unknown"
  pedestrian_volume : String := "unknown"
  vehicle_aadt : Int := 0
  is_stroad : Bool := false
  crash_count : Int := 0
  crash_fatality_count : Int := 0
  risk_score : ℚ := 0
  deriving DecidableEq, Repr

/-- Speed contribution of `StreetEdge.calculate_risk_score`. -/
def speedTerm (e : StreetEdge) : ℚ :=
  if e.speed_limit_mph ≥ 45 then 10
  else if e.speed_limit_mph ≥ 35 then 7
  else if e.speed_limit_mph ≥ 25 then 3
  else 1

/-- Wide-lane contribution. -/
def laneWidthTerm (e : StreetEdge) : ℚ :=
  if e.lane_width_feet ≥ 12 then 2 else 0

/-- Lane-count contribution. -/
def lanesTerm (e : StreetEdge) : ℚ :=
  if e.lanes ≥ 6 then 5
  else if e.lanes ≥ 4 then 3
  else if e.lanes ≥ 3 then 3 / 2
  else 0

/-- Stroad contribution. -/
def stroadTerm (e : StreetEdge) : ℚ :=
  if e.is_stroad then 8 else 0

/-- Sidewalk contribution. -/
def sidewalkTerm (e : StreetEdge) : ℚ :=
  if ¬e.has_sidewalk_north ∧ ¬e.has_sidewalk_south then 5
  else if e.sidewalk_width_feet < 5 then 2
  else 0

/-- Missing-buffer contribution. -/
def bufferTerm (e : StreetEdge) : ℚ :=
  if ¬e.has_buffer then 3 else 0

/-- Lighting contribution. -/
def lightingTerm (e : StreetEdge) : ℚ :=
  if e.lighting_quality = "none" then 6
  else if e.lighting_quality = "poor" then 4
  else 0

/-- Traffic-volume contribution. -/
def aadtTerm (e : StreetEdge) : ℚ :=
  if e.vehicle_aadt > 20000 then 3
  else if e.vehicle_aadt > 10000 then 2
  else 0

/-- Protected bike lane mitigation (subtracted). -/
def bikeLaneMitigation (e : StreetEdge) : ℚ :=
  if e.has_bike_lane ∧ e.bike_lane_protected then 3 else 0

/-- Street-tree mitigation (subtracted). -/
def treesMitigation (e : StreetEdge) : ℚ :=
  if e.has_street_trees then 2 else 0

/-- Wide-buffer mitigation (subtracted). -/
def bufferMitigation (e : StreetEdge) : ℚ :=
  if e.has_buffer ∧ e.buffer_width_feet ≥ 8 then 2 else 0

/-- Historical crash contribution. -/
def crashTerm (e : StreetEdge) : ℚ :=
  (e.crash_count : ℚ) * 2 + (e.crash_fatality_count : ℚ) * 10

/-- The running `score` accumulated by `calculate_risk_score` before the
final clamp: the sequential `score +=` / `score -=` statements of the
source, written as a sum. -/
def riskScoreRaw (e : StreetEdge) : ℚ :=
  speedTerm e + laneWidthTerm e + lanesTerm e + stroadTerm e + sidewalkTerm e
    + bufferTerm e + lightingTerm e + aadtTerm e
    - bikeLaneMitigation e - treesMitigation e - bufferMitigation e
    + crashTerm e

/-- `StreetEdge.calculate_risk_score`: stores `max(0.0, score)` in
`risk_score` and returns it; the method both mutates the edge and returns
the score, so the embedding returns the updated edge together with the
returned value. -/
def calculate_risk_score (e : StreetEdge) : StreetEdge × ℚ :=
  let s := max 0 (riskScoreRaw e)
  ({ e with risk_score := s }, s)

/-- The edge of the spec's concrete Scenario 1: `speed_limit_mph=45`,
`lanes=4`, no sidewalks, `lighting_quality="none"`, zero crashes, every
other attribute at its declared default. -/
def scenario1Edge : StreetEdge :=
  { id := "e1", from_node := "n1", to_node := "n2",
    speed_limit_mph := 45, lanes := 4,
    has_sidewalk_north := false, has_sidewalk_south := false,
    lighting_quality := "none", crash_count := 0, crash_fatality_count := 0 }

/-- A crash record dict as consumed by `add_crash`. -/
def CrashData : Type := List (String × PyScalar)

instance : DecidableEq CrashData := by
  unfold CrashData
  infer_instance

/-- The street network: dicts of nodes and edges plus the raw crash log
(class `StreetNetwork`). -/
structure StreetNetwork where
  nodes : List (String × IntersectionNode) := []
  edges : List (String × StreetEdge) := []
  crashes : List CrashData := []
  deriving DecidableEq

/-- `StreetNetwork.add_node`: `self.nodes[node.id] = node`. -/
def add_node (net : StreetNetwork) (node : IntersectionNode) : StreetNetwork :=
  { net with nodes := dictInsert node.id node net.nodes }

/-- Append `eid` to the `connected_edges` of the node stored under `nid`
when that node exists and does not already list `eid`; the Python body
guards with `if edge.from_node in self.nodes` and
`if edge.id not in ...connected_edges`. -/
def connectNode (nodes : List (String × IntersectionNode)) (nid eid : String) :
    List (String × IntersectionNode) :=
  match dictGet nid nodes with
  | some n =>
      if eid ∈ n.connected_edges then nodes
      else dictInsert nid { n with connected_edges := n.connected_edges ++ [eid] } nodes
  | none => nodes

/-- `StreetNetwork.add_edge`: stores the edge under its id, then updates the
incident-edge lists of whichever endpoints exist (unknown endpoints are
silently skipped; the `to_node` update sees the result of the `from_node`
update). -/
def add_edge (net : StreetNetwork) (edge : StreetEdge) : StreetNetwork :=
  let edges := dictInsert edge.id edge net.edges
  let nodes := connectNode net.nodes edge.from_node edge.id
  let nodes := connectNode nodes edge.to_node edge.id
  { net with edges := edges, nodes := nodes }

/-! ## Geometry: `_point_to_segment_distance` and `find_nearest_edge`

These use `math.cos` and `math.sqrt`, modelled over `ℝ`. -/

/-- `StreetNetwork._point_to_segment_distance`: planar approximation of the
distance in meters from `(px, py)` to the segment `(x1, y1)-(x2, y2)`
(all in degrees), with the projection parameter clamped to `[0, 1]`. -/
noncomputable def point_to_segment_distance (px py x1 y1 x2 y2 : ℝ) : ℝ :=
  let meters_per_degree_lat : ℝ := 111000
  let meters_per_degree_lon : ℝ := 111000 * Real.cos (px * (Real.pi / 180))
  let px_m := px * meters_per_degree_lat
  let py_m := py * meters_per_degree_lon
  let x1_m := x1 * meters_per_degree_lat
  let y1_m := y1 * meters_per_degree_lon
  let x2_m := x2 * meters_per_degree_lat
  let y2_m := y2 * meters_per_degree_lon
  let dx := x2_m - x1_m
  let dy := y2_m - y1_m
  if dx = 0 ∧ dy = 0 then
    Real.sqrt ((px_m - x1_m) ^ 2 + (py_m - y1_m) ^ 2)
  else
    let t := max 0 (min 1 (((px_m - x1_m) * dx + (py_m - y1_m) * dy) / (dx ^ 2 + dy ^ 2)))
    let closest_x := x1_m + t * dx
    let closest_y := y1_m + t * dy
    Real.sqrt ((px_m - closest_x) ^ 2 + (py_m - closest_y) ^ 2)

/-- The candidate entries of the `find_nearest_edge` loop: the edge dict
entries whose two endpoints resolve to nodes (the loop `continue`s past the
rest, here a `filterMap`), each paired with its computed distance. -/
noncomputable def candidate_entries (net : StreetNetwork) (la lo : ℝ) :
    List (ℝ × String × StreetEdge) :=
  net.edges.filterMap fun p =>
    match dictGet p.2.from_node net.nodes, dictGet p.2.to_node net.nodes with
    | some n1, some n2 =>
        some (point_to_segment_distance la lo (n1.lat : ℝ) (n1.lon : ℝ)
                (n2.lat : ℝ) (n2.lon : ℝ), p)
    | _, _ => none

/-- One step of the `min_distance` / `nearest` accumulation of
`find_nearest_edge`: `none` is the initial `min_distance = inf`, and a
strictly smaller distance replaces the current best (the first candidate
wins ties, as in the source's `dist < min_distance`). -/
noncomputable def nearestStep (acc : Option (ℝ × String × StreetEdge))
    (c : ℝ × String × StreetEdge) : Option (ℝ × String × StreetEdge) :=
  match acc with
  | none => some c
  | some b => if c.1 < b.1 then some c else some b

/-- The whole `min_distance` / `nearest` loop of `find_nearest_edge`. -/
noncomputable def nearestFold (l : List (ℝ × String × StreetEdge)) :
    Option (ℝ × String × StreetEdge) :=
  l.foldl nearestStep none

/-- `StreetNetwork.find_nearest_edge`, keeping the dict key of the winning
entry (the key identifies the dict slot Python mutates through the returned
object reference). -/
noncomputable def find_nearest_edge_entry (net : StreetNetwork) (la lo : ℝ)
    (max_distance_meters : ℝ) : Option (String × StreetEdge) :=
  match nearestFold (candidate_entries net la lo) with
  | none => none
  | some b => if b.1 ≤ max_distance_meters then some b.2 else none

/-- `StreetNetwork.find_nearest_edge` as in the source: the nearest edge
within the threshold, or `none`. -/
noncomputable def find_nearest_edge (net : StreetNetwork) (la lo : ℝ)
    (max_distance_meters : ℝ) : Option StreetEdge :=
  (find_nearest_edge_entry net la lo max_distance_meters).map Prod.snd

/-- Increment the crash counter (and the fatality counter when `fatal`) of
the edge stored under `eid`: the in-place `nearest_edge.crash_count += 1` of
`add_crash`, addressed through the dict slot. -/
def bumpEdge (net : StreetNetwork) (eid : String) (fatal : Bool) : StreetNetwork :=
  { net with
    edges := net.edges.map fun p =>
      if p.1 = eid then
        (p.1, { p.2 with
                crash_count := p.2.crash_count + 1,
                crash_fatality_count :=
                  p.2.crash_fatality_count + (if fatal then 1 else 0) })
      else p }

/-- `StreetNetwork.add_crash`: appends the record to the raw crash log, then
maps it to the nearest edge within 50 m when `crash_data.get('lat')` and
`crash_data.get('lon')` are both truthy; `none` models a TypeError from
arithmetic on a truthy non-numeric coordinate. -/
noncomputable def add_crash (net : StreetNetwork) (crash : CrashData) :
    Option StreetNetwork :=
  let net1 := { net with crashes := net.crashes ++ [crash] }
  let latv := dictGet "lat" crash
  let lonv := dictGet "lon" crash
  if py_truthy latv ∧ py_truthy lonv then
    match latv.bind pyToQ, lonv.bind pyToQ with
    | some la, some lo =>
        match find_nearest_edge_entry net1 (la : ℝ) (lo : ℝ) 50 with
        | some (k, _) =>
            let fatal := py_truthy (some ((dictGet "fatal" crash).getD (.pybool false)))
            some (bumpEdge net1 k fatal)
        | none => some net1
    | _, _ => none
  else some net1

/-- `StreetNetwork.calculate_all_risk_scores`: rescore every edge in place. -/
def calculate_all_risk_scores (net : StreetNetwork) : StreetNetwork :=
  { net with edges := net.edges.map fun p => (p.1, (calculate_risk_score p.2).1) }

/-! ## The intervention simulator (`intervention_simulator.py`) -/

/-- Smallest numeric value of a list of scalars (`min(value)` in Python);
`none` models the TypeError of `min` over non-numbers. -/
def minQ : List PyScalar → Option ℚ
  | [] => none
  | [v] => pyToQ v
  | v :: rest =>
      match pyToQ v, minQ rest with
      | some q, some m => some (min q m)
      | _, _ => none

/-- One `key, value` criterion of `InterventionSimulator._matches_filter`,
evaluated against the attribute value `a` of the target object.
`none` models an escaping exception (IndexError on `value[0]` of an empty
list, TypeError on an order comparison between incompatible types).
A list whose first element is an `int`/`float` (bools included) acts as a
minimum threshold over `min(value)`; any other list matches by membership;
a numeric scalar (bools included, as `isinstance(True, int)` holds) acts as
a minimum threshold; any other scalar requires equality. -/
def matchesCriterion (a : AttrVal) : FilterVal → Option Bool
  | .vlist [] => none
  | .vlist (v :: rest) =>
      if pyIsNum v then
        match attrToQ a, minQ (v :: rest) with
        | some qa, some m => some (¬qa < m)
        | _, _ => none
      else
        some ((v :: rest).any (fun w => pyEq a w))
  | .scalar v =>
      if pyIsNum v then
        match attrToQ a, pyToQ v with
        | some qa, some qv => some (¬qa < qv)
        | _, _ => none
      else
        some (pyEq a v)

/-- `getattr` over the typed fields of `StreetEdge` (the `id` and risk
fields included, exactly the dataclass attributes). -/
def edgeGetattr (e : StreetEdge) : String → Option AttrVal
  | "id" => some (.astr e.id)
  | "from_node" => some (.astr e.from_node)
  | "to_node" => some (.astr e.to_node)
  | "name" => some (.astr e.name)
  | "length_meters" => some (.afloat e.length_meters)
  | "road_class" => some (.astr e.road_class)
  | "functional_class" => some (.aint e.functional_class)
  | "lanes" => some (.aint e.lanes)
  | "speed_limit_mph" => some (.aint e.speed_limit_mph)
  | "posted_speed_mph" => some (.aint e.posted_speed_mph)
  | "design_speed_mph" => some (.aint e.design_speed_mph)
  | "lane_width_feet" => some (.afloat e.lane_width_feet)
  | "has_sidewalk_north" => some (.abool e.has_sidewalk_north)
  | "has_sidewalk_south" => some (.abool e.has_sidewalk_south)
  | "sidewalk_width_feet" => some (.afloat e.sidewalk_width_feet)
  | "has_buffer" => some (.abool e.has_buffer)
  | "buffer_width_feet" => some (.afloat e.buffer_width_feet)
  | "has_street_trees" => some (.abool e.has_street_trees)
  | "has_bike_lane" => some (.abool e.has_bike_lane)
  | "bike_lane_protected" => some (.abool e.bike_lane_protected)
  | "lighting_quality" => some (.astr e.lighting_quality)
  | "lighting_spacing_feet" => some (.afloat e.lighting_spacing_feet)
  | "land_use" => some (.astr e.land_use)
  | "pedestrian_volume" => some (.astr e.pedestrian_volume)
  | "vehicle_aadt" => some (.aint e.vehicle_aadt)
  | "is_stroad" => some (.abool e.is_stroad)
  | "crash_count" => some (.aint e.crash_count)
  | "crash_fatality_count" => some (.aint e.crash_fatality_count)
  | "risk_score" => some (.afloat e.risk_score)
  | _ => none

/-- `getattr` over the typed fields of `IntersectionNode`. -/
def nodeGetattr (n : IntersectionNode) : String → Option AttrVal
  | "id" => some (.astr n.id)
  | "lat" => some (.afloat n.lat)
  | "lon" => some (.afloat n.lon)
  | "intersection_type" => some (.astr n.intersection_type)
  | "has_signals" => some (.abool n.has_signals)
  | "has_pedestrian_signals" => some (.abool n.has_pedestrian_signals)
  | "has_leading_pedestrian_interval" => some (.abool n.has_leading_pedestrian_interval)
  | "has_curb_extensions" => some (.abool n.has_curb_extensions)
  | "has_refuge_island" => some (.abool n.has_refuge_island)
  | "has_raised_crossing" => some (.abool n.has_raised_crossing)
  | "crossing_count" => some (.aint n.crossing_count)
  | "leg_count" => some (.aint n.leg_count)
  | "crash_count" => some (.aint n.crash_count)
  | "crash_fatality_count" => some (.aint n.crash_fatality_count)
  | "risk_score" => some (.afloat n.risk_score)
  | "connected_edges" => some (.astrlist n.connected_edges)
  | _ => none

/-- `InterventionSimulator._matches_filter` over an abstract `getattr`:
returns `False` as soon as an attribute is missing or a criterion fails,
`True` when every criterion passes; `none` is an escaping exception. -/
def matchesFilterG (getA : String → Option AttrVal) :
    List (String × FilterVal) → Option Bool
  | [] => some true
  | (k, v) :: rest =>
      match getA k with
      | none => some false
      | some a =>
          match matchesCriterion a v with
          | none => none
          | some false => some false
          | some true => matchesFilterG getA rest

/-- `_matches_filter` applied to an edge. -/
def matchesFilterEdge (e : StreetEdge) (fc : List (String × FilterVal)) :
    Option Bool :=
  matchesFilterG (edgeGetattr e) fc

/-- `_matches_filter` applied to a node. -/
def matchesFilterNode (n : IntersectionNode) (fc : List (String × FilterVal)) :
    Option Bool :=
  matchesFilterG (nodeGetattr n) fc

/-- Store `v` into the named field of an edge when the field exists (the
`if hasattr(edge, key): setattr(edge, key, value)` of `apply_scenario`);
numeric values are stored numerically into numeric fields (a Python float
assigned to a field holding an int simply replaces it). A value whose kind
does not fit the field leaves the edge unchanged. -/
def edgeSetattr (e : StreetEdge) (k : String) (v : AttrVal) : StreetEdge :=
  match k, v, attrToQ v with
  | "name", .astr s, _ => { e with name := s }
  | "length_meters", _, some q => { e with length_meters := q }
  | "road_class", .astr s, _ => { e with road_class := s }
  | "functional_class", .aint n, _ => { e with functional_class := n }
  | "lanes", .aint n, _ => { e with lanes := n }
  | "speed_limit_mph", .aint n, _ => { e with speed_limit_mph := n }
  | "posted_speed_mph", .aint n, _ => { e with posted_speed_mph := n }
  | "design_speed_mph", .aint n, _ => { e with design_speed_mph := n }
  | "lane_width_feet", _, some q => { e with lane_width_feet := q }
  | "has_sidewalk_north", .abool b, _ => { e with has_sidewalk_north := b }
  | "has_sidewalk_south", .abool b, _ => { e with has_sidewalk_south := b }
  | "sidewalk_width_feet", _, some q => { e with sidewalk_width_feet := q }
  | "has_buffer", .abool b, _ => { e with has_buffer := b }
  | "buffer_width_feet", _, some q => { e with buffer_width_feet := q }
  | "has_street_trees", .abool b, _ => { e with has_street_trees := b }
  | "has_bike_lane", .abool b, _ => { e with has_bike_lane := b }
  | "bike_lane_protected", .abool b, _ => { e with bike_lane_protected := b }
  | "lighting_quality", .astr s, _ => { e with lighting_quality := s }
  | "lighting_spacing_feet", _, some q => { e with lighting_spacing_feet := q }
  | "land_use", .astr s, _ => { e with land_use := s }
  | "pedestrian_volume", .astr s, _ => { e with pedestrian_volume := s }
  | "vehicle_aadt", .aint n, _ => { e with vehicle_aadt := n }
  | "is_stroad", .abool b, _ => { e with is_stroad := b }
  | "crash_count", .aint n, _ => { e with crash_count := n }
  | "crash_fatality_count", .aint n, _ => { e with crash_fatality_count := n }
  | "risk_score", _, some q => { e with risk_score := q }
  | _, _, _ => e

/-- `setattr` on a node for the fields the scenarios touch. -/
def nodeSetattr (n : IntersectionNode) (k : String) (v : AttrVal) :
    IntersectionNode :=
  match k, v, attrToQ v with
  | "intersection_type", .astr s, _ => { n with intersection_type := s }
  | "has_signals", .abool b, _ => { n with has_signals := b }
  | "has_pedestrian_signals", .abool b, _ => { n with has_pedestrian_signals := b }
  | "has_leading_pedestrian_interval", .abool b, _ =>
      { n with has_leading_pedestrian_interval := b }
  | "has_curb_extensions", .abool b, _ => { n with has_curb_extensions := b }
  | "has_refuge_island", .abool b, _ => { n with has_refuge_island := b }
  | "has_raised_crossing", .abool b, _ => { n with has_raised_crossing := b }
  | "crossing_count", .aint m, _ => { n with crossing_count := m }
  | "leg_count", .aint m, _ => { n with leg_count := m }
  | "crash_count", .aint m, _ => { n with crash_count := m }
  | "crash_fatality_count", .aint m, _ => { n with crash_fatality_count := m }
  | "risk_score", _, some q => { n with risk_score := q }
  | _, _, _ => n

/-- One modification of a scenario: its `type`, `filter` and `change`
entries. -/
structure Modification where
  type : String
  filter : List (String × FilterVal) := []
  change : List (String × AttrVal)
  deriving DecidableEq, Repr

/-- Dataclass `InterventionScenario`. -/
structure InterventionScenario where
  name : String
  description : String
  modifications : List Modification
  estimated_cost_per_mile : ℚ
  evidence_source : String
  expected_crash_reduction_pct : ℚ
  deriving DecidableEq, Repr

/-- The modification `type` values dispatched to the edge branch of
`apply_scenario`. -/
def edgeModTypes : List String :=
  ["speed_limit", "sidewalk", "lighting", "bike_lane", "traffic_calming",
   "stroad_fix"]

/-- Apply every `change` assignment of a modification to an edge. -/
def applyChangesEdge (e : StreetEdge) (ch : List (String × AttrVal)) : StreetEdge :=
  ch.foldl (fun acc p => edgeSetattr acc p.1 p.2) e

/-- Apply every `change` assignment of a modification to a node. -/
def applyChangesNode (n : IntersectionNode) (ch : List (String × AttrVal)) :
    IntersectionNode :=
  ch.foldl (fun acc p => nodeSetattr acc p.1 p.2) n

/-- One iteration of the modification loop of `apply_scenario` on the
working copy: mutate every matching edge (or node, for
`intersection_upgrade`); a `type` outside both lists touches nothing.
`none` propagates an exception raised while matching. -/
def applyModification (net : StreetNetwork) (m : Modification) :
    Option StreetNetwork :=
  if m.type ∈ edgeModTypes then do
    let newEdges ← net.edges.mapM fun p => do
      let ok ← matchesFilterEdge p.2 m.filter
      pure (p.1, if ok then applyChangesEdge p.2 m.change else p.2)
    pure { net with edges := newEdges }
  else if m.type = "intersection_upgrade" then do
    let newNodes ← net.nodes.mapM fun p => do
      let ok ← matchesFilterNode p.2 m.filter
      pure (p.1, if ok then applyChangesNode p.2 m.change else p.2)
    pure { net with nodes := newNodes }
  else
    pure net

/-- The simulator's state: the baseline network and the named scenario
results (`self.baseline`, `self.scenarios`). -/
structure InterventionSimulator where
  baseline : StreetNetwork
  scenarios : List (String × StreetNetwork) := []
  deriving DecidableEq

/-- `InterventionSimulator.apply_scenario`: deep-copy the baseline (value
copy in the embedding), apply each modification in order to the copy,
rescore the copy, store it under `scenario_name`, and return it together
with the updated simulator. `none` models an exception escaping the filter
evaluation, in which case nothing is stored. -/
def apply_scenario (sim : InterventionSimulator) (scenario_name : String)
    (scenario : InterventionScenario) :
    Option (InterventionSimulator × StreetNetwork) :=
  match scenario.modifications.foldlM applyModification sim.baseline with
  | none => none
  | some modified =>
      let scored := calculate_all_risk_scores modified
      some ({ baseline := sim.baseline,
              scenarios := dictInsert scenario_name scored sim.scenarios }, scored)

/-- The filter of the predefined `complete_sidewalks` scenario:
`{'has_sidewalk_north': False, 'has_sidewalk_south': False}`. -/
def complete_sidewalks_filter : List (String × FilterVal) :=
  [("has_sidewalk_north", .scalar (.pybool false)),
   ("has_sidewalk_south", .scalar (.pybool false))]

/-! ## Claims about the risk-scoring engine -/

/-- Claim C2, counterexample: on the Scenario-1 edge (speed 45, 4 lanes, no
sidewalks, no lighting, zero crashes, all other attributes at their declared
defaults — in particular `lane_width_feet = 12.0`), `calculate_risk_score`
returns 29.0, not the claimed 27.0: the default lane width triggers the
wide-lane `+2.0` term. -/
theorem c2_score_is_29_not_27 :
    (calculate_risk_score scenario1Edge).2 = 29 ∧ (29 : ℚ) ≠ 27 := by
  constructor
  · have h : riskScoreRaw scenario1Edge = 29 := by
      norm_num [riskScoreRaw, speedTerm, laneWidthTerm, lanesTerm, stroadTerm,
        sidewalkTerm, bufferTerm, lightingTerm, aadtTerm, bikeLaneMitigation,
        treesMitigation, bufferMitigation, crashTerm, scenario1Edge]
    simp only [calculate_risk_score, h]
    norm_num
  · norm_num

/-- Claim C2 as amended: on the Scenario-1 edge the score is exactly 29.0 =
10.0 (speed) + 2.0 (default 12 ft lane width) + 3.0 (lanes) + 5.0 (no
sidewalk) + 3.0 (no buffer) + 6.0 (no lighting), and that is the sum of the
individual contribution terms of the scoring function. -/
theorem c2_amended_score_breakdown :
    (calculate_risk_score scenario1Edge).2 = 29 ∧
    speedTerm scenario1Edge = 10 ∧
    laneWidthTerm scenario1Edge = 2 ∧
    lanesTerm scenario1Edge = 3 ∧
    sidewalkTerm scenario1Edge = 5 ∧
    bufferTerm scenario1Edge = 3 ∧
    lightingTerm scenario1Edge = 6 := by
  have h : riskScoreRaw scenario1Edge = 29 := by
    norm_num [riskScoreRaw, speedTerm, laneWidthTerm, lanesTerm, stroadTerm,
      sidewalkTerm, bufferTerm, lightingTerm, aadtTerm, bikeLaneMitigation,
      treesMitigation, bufferMitigation, crashTerm, scenario1Edge]
  refine ⟨?_, ?_, ?_, ?_, ?_, ?_, ?_⟩
  · simp only [calculate_risk_score, h]
    norm_num
  · norm_num [speedTerm, scenario1Edge]
  · norm_num [laneWidthTerm, scenario1Edge]
  · norm_num [lanesTerm, scenario1Edge]
  · norm_num [sidewalkTerm, scenario1Edge]
  · norm_num [bufferTerm, scenario1Edge]
  · norm_num [lightingTerm, scenario1Edge]

/-- Claim C8: rescoring an unchanged network is idempotent — running
`calculate_all_risk_scores` twice gives the same network (hence the same
score on every edge) as running it once, because the score of an edge does
not depend on its stored `risk_score`. -/
theorem c8_score_all_idempotent (net : StreetNetwork) :
    calculate_all_risk_scores (calculate_all_risk_scores net) =
      calculate_all_risk_scores net := by
  unfold calculate_all_risk_scores
  refine congrArg (fun l => { net with edges := l }) ?_
  rw [List.map_map]
  exact List.map_congr_left fun p _ => rfl

/-- Claim C9: raising `speed_limit_mph` (all else fixed) never decreases the
risk score returned by `calculate_risk_score`, and on an edge with no
sidewalk on either side, setting the sidewalk flags (all else fixed,
whatever the `sidewalk_width_feet`) never increases it. -/
theorem c9_risk_monotonicity (e : StreetEdge) (s1 s2 : Int) (h : s1 ≤ s2) :
    (calculate_risk_score { e with speed_limit_mph := s1 }).2 ≤
      (calculate_risk_score { e with speed_limit_mph := s2 }).2 ∧
    (e.has_sidewalk_north = false → e.has_sidewalk_south = false →
      ∀ bn bs : Bool,
        (calculate_risk_score
            { e with has_sidewalk_north := bn, has_sidewalk_south := bs }).2 ≤
          (calculate_risk_score e).2) := by
  constructor
  · have hterm : speedTerm { e with speed_limit_mph := s1 } ≤
        speedTerm { e with speed_limit_mph := s2 } := by
      simp only [speedTerm]
      split_ifs <;> (try norm_num) <;> omega
    have hrw : ∀ s : Int, riskScoreRaw { e with speed_limit_mph := s } =
        speedTerm { e with speed_limit_mph := s } + laneWidthTerm e + lanesTerm e
          + stroadTerm e + sidewalkTerm e + bufferTerm e + lightingTerm e
          + aadtTerm e - bikeLaneMitigation e - treesMitigation e
          - bufferMitigation e + crashTerm e := fun s => rfl
    show max 0 (riskScoreRaw { e with speed_limit_mph := s1 }) ≤
      max 0 (riskScoreRaw { e with speed_limit_mph := s2 })
    rw [hrw s1, hrw s2]
    exact max_le_max le_rfl (by linarith)
  · intro hn hs bn bs
    have he : sidewalkTerm e = 5 := by simp [sidewalkTerm, hn, hs]
    have hterm2 : sidewalkTerm { e with has_sidewalk_north := bn, has_sidewalk_south := bs } ≤ sidewalkTerm e := by
      rw [he]
      simp only [sidewalkTerm]
      split_ifs <;> norm_num
    have hrw2 : riskScoreRaw { e with has_sidewalk_north := bn, has_sidewalk_south := bs } =
        speedTerm e + laneWidthTerm e + lanesTerm e + stroadTerm e
          + sidewalkTerm { e with has_sidewalk_north := bn, has_sidewalk_south := bs }
          + bufferTerm e + lightingTerm e + aadtTerm e - bikeLaneMitigation e
          - treesMitigation e - bufferMitigation e + crashTerm e := rfl
    have hrwe : riskScoreRaw e =
        speedTerm e + laneWidthTerm e + lanesTerm e + stroadTerm e
          + sidewalkTerm e
          + bufferTerm e + lightingTerm e + aadtTerm e - bikeLaneMitigation e
          - treesMitigation e - bufferMitigation e + crashTerm e := rfl
    show max 0 (riskScoreRaw { e with has_sidewalk_north := bn, has_sidewalk_south := bs }) ≤ max 0 (riskScoreRaw e)
    rw [hrw2, hrwe]
    exact max_le_max le_rfl (by linarith)

/-- Witness for C9 at a concrete input: the Scenario-1 edge at 25 mph scores
no more than at 45 mph, and giving it both sidewalks does not raise its
score. -/
theorem c9_witness :
    (calculate_risk_score { scenario1Edge with speed_limit_mph := 25 }).2 ≤
      (calculate_risk_score { scenario1Edge with speed_limit_mph := 45 }).2 ∧
    (calculate_risk_score { scenario1Edge with has_sidewalk_north := true, has_sidewalk_south := true }).2 ≤
      (calculate_risk_score scenario1Edge).2 := by
  constructor
  · exact (c9_risk_monotonicity scenario1Edge 25 45 (by norm_num)).1
  · exact (c9_risk_monotonicity scenario1Edge 25 45 (by norm_num)).2 rfl rfl true true

/-! ## Claims about the filter semantics -/

/-- A single-criterion filter evaluates to the criterion's verdict. -/
theorem matchesFilterG_single (getA : String → Option AttrVal) (k : String)
    (v : FilterVal) (a : AttrVal) (b : Bool) (hga : getA k = some a)
    (hc : matchesCriterion a v = some b) :
    matchesFilterG getA [(k, v)] = some b := by
  simp only [matchesFilterG, hga, hc]
  cases b <;> rfl

/-- Python membership of a string in a list of strings is list membership. -/
theorem any_pyEq_str (s : String) (ss : List String) :
    (ss.map PyScalar.pystr).any (fun w => pyEq (.astr s) w) = decide (s ∈ ss) := by
  induction ss with
  | nil => rfl
  | cons t ts ih =>
      simp only [List.map_cons, List.any_cons, ih]
      by_cases h : s = t
      · simp [h, pyEq, attrToQ, pyToQ, List.mem_cons]
      · simp [h, pyEq, attrToQ, pyToQ, List.mem_cons]

/-- Claim C3: on any edge attribute with numeric value `aq`, a scalar
numeric filter value `X` (int or float) matches exactly when `aq ≥ X`
(minimum-threshold semantics, not equality), and a filter value that is a
non-empty list of categorical (string) values matches a string attribute
exactly when the attribute is a member of the list. -/
theorem c3_filter_threshold_and_membership (e : StreetEdge) (k : String) :
    (∀ a aq, edgeGetattr e k = some a → attrToQ a = some aq →
      (∀ n : Int, matchesFilterEdge e [(k, FilterVal.scalar (PyScalar.pyint n))]
          = some (decide ((n : ℚ) ≤ aq))) ∧
      (∀ q : ℚ, matchesFilterEdge e [(k, FilterVal.scalar (PyScalar.pyfloat q))]
          = some (decide (q ≤ aq)))) ∧
    (∀ (s : String) (ss : List String), ss ≠ [] →
      edgeGetattr e k = some (.astr s) →
      matchesFilterEdge e [(k, FilterVal.vlist (ss.map PyScalar.pystr))]
        = some (decide (s ∈ ss))) := by
  constructor
  · intro a aq hga haq
    constructor
    · intro n
      apply matchesFilterG_single _ _ _ _ _ hga
      simp only [matchesCriterion, pyIsNum, if_true, haq, pyToQ]
      exact congrArg some (decide_eq_decide.mpr not_lt)
    · intro q
      apply matchesFilterG_single _ _ _ _ _ hga
      simp only [matchesCriterion, pyIsNum, if_true, haq, pyToQ]
      exact congrArg some (decide_eq_decide.mpr not_lt)
  · intro s ss hne hga
    cases ss with
    | nil => exact absurd rfl hne
    | cons s0 rest =>
      apply matchesFilterG_single _ _ _ _ _ hga
      simp only [List.map_cons, matchesCriterion, pyIsNum, Bool.false_eq_true,
        if_false]
      rw [show (PyScalar.pystr s0 :: List.map PyScalar.pystr rest)
            = (s0 :: rest).map PyScalar.pystr from rfl,
        any_pyEq_str]

/-- Witness for C3 at concrete inputs: `{'speed_limit_mph': 45}` against the
45 mph Scenario-1 edge, and `{'lighting_quality': ['none', 'poor']}` against
its `"none"` lighting. -/
theorem c3_witness :
    matchesFilterEdge scenario1Edge
        [("speed_limit_mph", FilterVal.scalar (PyScalar.pyint 45))]
      = some (decide ((45 : ℚ) ≤ 45)) ∧
    matchesFilterEdge scenario1Edge
        [("lighting_quality", FilterVal.vlist ([ "none", "poor" ].map PyScalar.pystr))]
      = some (decide ("none" ∈ ([ "none", "poor" ] : List String))) := by
  constructor
  · exact (((c3_filter_threshold_and_membership scenario1Edge "speed_limit_mph").1
      (.aint 45) 45 rfl (by norm_num [attrToQ])).1) 45
  · exact (c3_filter_threshold_and_membership scenario1Edge "lighting_quality").2
      "none" ["none", "poor"] (by simp) rfl

/-- An edge that has sidewalks on both sides. -/
def sidewalkedEdge : StreetEdge :=
  { id := "e2", from_node := "a", to_node := "b",
    has_sidewalk_north := true, has_sidewalk_south := true }

/-- Claim C4, evaluation at the failing input: the `complete_sidewalks`
filter `{'has_sidewalk_north': False, 'has_sidewalk_south': False}` matches
an edge whose two sidewalk flags are `True`, because `isinstance(False,
(int, float))` holds in Python and `False` therefore acts as the numeric
threshold 0, which every boolean satisfies — not as an exact-equality test
as the claim states. -/
theorem c4_bool_filter_bug_eval :
    matchesFilterEdge sidewalkedEdge complete_sidewalks_filter = some true ∧
    sidewalkedEdge.has_sidewalk_north = true ∧
    sidewalkedEdge.has_sidewalk_south = true := by
  refine ⟨?_, rfl, rfl⟩
  decide

/-! ## Dict lemmas -/

/-- Replacing the entry at `k` makes lookup of `k` return the new value. -/
theorem dictGet_map_replace {α : Type} (k : String) (v : α)
    (d : List (String × α)) (h : d.any (fun p => p.1 = k) = true) :
    dictGet k (d.map (fun p => if p.1 = k then (k, v) else p)) = some v := by
  induction d with
  | nil => simp at h
  | cons hd tl ih =>
      by_cases hk : hd.1 = k
      · simp [dictGet, List.find?, hk]
      · simp only [List.any_cons, Bool.or_eq_true, decide_eq_true_eq] at h
        rcases h with h | h
        · exact absurd h hk
        · simp only [List.map_cons, if_neg hk]
          simpa [dictGet, List.find?_cons, hk] using ih h

/-- Appending a fresh entry makes lookup of its key return its value. -/
theorem dictGet_append_new {α : Type} (k : String) (v : α)
    (d : List (String × α)) (h : d.any (fun p => p.1 = k) = false) :
    dictGet k (d ++ [(k, v)]) = some v := by
  induction d with
  | nil => simp [dictGet, List.find?]
  | cons hd tl ih =>
      simp only [List.any_cons, Bool.or_eq_false_iff] at h
      have hk : ¬hd.1 = k := by simpa using h.1
      simp only [List.cons_append]
      simpa [dictGet, List.find?_cons, hk] using ih h.2

/-- `d[k] = v` then `d.get(k)` gives `v`. -/
theorem dictGet_dictInsert_self {α : Type} (k : String) (v : α)
    (d : List (String × α)) :
    dictGet k (dictInsert k v d) = some v := by
  unfold dictInsert
  by_cases h : d.any (fun p => p.1 = k) = true
  · rw [if_pos h]
    exact dictGet_map_replace k v d h
  · rw [if_neg h]
    exact dictGet_append_new k v d (by simpa only [Bool.not_eq_true] using h)

/-- Replacing the entry at `k2` leaves lookups of other keys unchanged. -/
theorem dictGet_map_replace_other {α : Type} (k k2 : String) (v : α)
    (d : List (String × α)) (hkk : k ≠ k2) :
    dictGet k (d.map (fun p => if p.1 = k2 then (k2, v) else p)) = dictGet k d := by
  induction d with
  | nil => rfl
  | cons hd tl ih =>
      by_cases hk : hd.1 = k2
      · have hdk : ¬hd.1 = k := by rw [hk]; exact Ne.symm hkk
        simp only [List.map_cons, if_pos hk]
        simpa [dictGet, List.find?_cons, Ne.symm hkk, hdk] using ih
      · simp only [List.map_cons, if_neg hk]
        by_cases hdk : hd.1 = k
        · simp [dictGet, List.find?_cons, hdk]
        · simpa [dictGet, List.find?_cons, hdk] using ih

/-- Appending an entry for `k2` leaves lookups of other keys unchanged. -/
theorem dictGet_append_other {α : Type} (k k2 : String) (v : α)
    (d : List (String × α)) (hkk : k ≠ k2) :
    dictGet k (d ++ [(k2, v)]) = dictGet k d := by
  induction d with
  | nil => simp [dictGet, List.find?, Ne.symm hkk]
  | cons hd tl ih =>
      by_cases hdk : hd.1 = k
      · simp [dictGet, List.find?_cons, hdk]
      · simp only [List.cons_append]
        simpa [dictGet, List.find?_cons, hdk] using ih

/-- `d[k2] = v` leaves lookups of other keys unchanged. -/
theorem dictGet_dictInsert_other {α : Type} (k k2 : String) (v : α)
    (d : List (String × α)) (hkk : k ≠ k2) :
    dictGet k (dictInsert k2 v d) = dictGet k d := by
  unfold dictInsert
  split
  · exact dictGet_map_replace_other k k2 v d hkk
  · exact dictGet_append_other k k2 v d hkk

/-! ## Claims about the graph model -/

/-- `connectNode` on an existing node leaves it holding `eid`. -/
theorem connectNode_self (nodes : List (String × IntersectionNode))
    (nid eid : String) (n : IntersectionNode)
    (h : dictGet nid nodes = some n) :
    ∃ n2, dictGet nid (connectNode nodes nid eid) = some n2 ∧
      eid ∈ n2.connected_edges := by
  simp only [connectNode, h]
  by_cases hmem : eid ∈ n.connected_edges
  · rw [if_pos hmem]
    exact ⟨n, h, hmem⟩
  · rw [if_neg hmem]
    refine ⟨_, dictGet_dictInsert_self _ _ _, ?_⟩
    simp

/-- `connectNode` at any key preserves a node's membership of `eid`. -/
theorem connectNode_preserves (nodes : List (String × IntersectionNode))
    (nid nid2 eid : String) (n : IntersectionNode)
    (h : dictGet nid nodes = some n) (hmem : eid ∈ n.connected_edges) :
    ∃ n2, dictGet nid (connectNode nodes nid2 eid) = some n2 ∧
      eid ∈ n2.connected_edges := by
  by_cases heq : nid2 = nid
  · subst heq
    simp only [connectNode, h, if_pos hmem]
    exact ⟨n, rfl, hmem⟩
  · simp only [connectNode]
    split
    · next m hm2 =>
        by_cases hm : eid ∈ m.connected_edges
        · rw [if_pos hm]
          exact ⟨n, h, hmem⟩
        · rw [if_neg hm]
          refine ⟨n, ?_, hmem⟩
          rw [dictGet_dictInsert_other _ _ _ _ (fun hc => heq hc.symm)]
          exact h
    · exact ⟨n, h, hmem⟩

/-- `connectNode` at another key does not change a node. -/
theorem connectNode_other (nodes : List (String × IntersectionNode))
    (nid nid2 eid : String) (hne : nid ≠ nid2) :
    dictGet nid (connectNode nodes nid2 eid) = dictGet nid nodes := by
  simp only [connectNode]
  split
  · next m hm2 =>
      by_cases hm : eid ∈ m.connected_edges
      · rw [if_pos hm]
      · rw [if_neg hm]
        exact dictGet_dictInsert_other _ _ _ _ hne
  · rfl

/-- The empty street network. -/
def emptyNetwork : StreetNetwork := {}

/-- An edge whose two endpoints name nodes that exist in no network. -/
def danglingEdge : StreetEdge :=
  { id := "e9", from_node := "ghost1", to_node := "ghost2" }

/-- Claim C5, counterexample: `add_edge` does NOT fail when an endpoint
identifier is unknown — on the empty network it stores the edge with both
endpoints dangling, and raises nothing. -/
theorem c5_add_edge_tolerates_dangling :
    (add_edge emptyNetwork danglingEdge).edges = [("e9", danglingEdge)] ∧
    dictGet "ghost1" (add_edge emptyNetwork danglingEdge).nodes = none ∧
    dictGet "ghost2" (add_edge emptyNetwork danglingEdge).nodes = none := by
  refine ⟨rfl, rfl, rfl⟩

/-- Claim C5 as amended: `add_edge` never fails; an unknown endpoint is
silently skipped when updating incident-edge sets, and when both endpoints
exist, after `add_edge` the edge is stored and both endpoints'
incident-edge sets contain the edge's identifier. -/
theorem c5_amended_add_edge (net : StreetNetwork) (edge : StreetEdge)
    (n1 n2 : IntersectionNode)
    (h1 : dictGet edge.from_node net.nodes = some n1)
    (h2 : dictGet edge.to_node net.nodes = some n2) :
    dictGet edge.id (add_edge net edge).edges = some edge ∧
    (∃ m1, dictGet edge.from_node (add_edge net edge).nodes = some m1 ∧
      edge.id ∈ m1.connected_edges) ∧
    (∃ m2, dictGet edge.to_node (add_edge net edge).nodes = some m2 ∧
      edge.id ∈ m2.connected_edges) := by
  refine ⟨dictGet_dictInsert_self _ _ _, ?_, ?_⟩
  · obtain ⟨m1, hm1, hmem1⟩ := connectNode_self net.nodes edge.from_node edge.id n1 h1
    exact connectNode_preserves _ _ _ _ _ hm1 hmem1
  · by_cases heq : edge.to_node = edge.from_node
    · obtain ⟨m1, hm1, hmem1⟩ := connectNode_self net.nodes edge.from_node edge.id n1 h1
      rw [heq]
      exact connectNode_preserves _ _ _ _ _ hm1 hmem1
    · have hkeep : dictGet edge.to_node (connectNode net.nodes edge.from_node edge.id)
          = some n2 := by
        rw [connectNode_other _ _ _ _ heq]
        exact h2
      exact connectNode_self _ _ _ _ hkeep

/-- A two-node network for the C5 witness. -/
def c5WitnessNet : StreetNetwork :=
  { nodes := [("a", { id := "a", lat := 0, lon := 0 }),
              ("b", { id := "b", lat := 0, lon := 1 })],
    edges := [], crashes := [] }

/-- The edge added in the C5 witness. -/
def c5WitnessEdge : StreetEdge := { id := "e1", from_node := "a", to_node := "b" }

/-- Witness for the amended C5 at a concrete network whose two nodes both
exist. -/
theorem c5_amended_witness :
    dictGet "e1" (add_edge c5WitnessNet c5WitnessEdge).edges = some c5WitnessEdge ∧
    (∃ m1, dictGet "a" (add_edge c5WitnessNet c5WitnessEdge).nodes = some m1 ∧
      "e1" ∈ m1.connected_edges) ∧
    (∃ m2, dictGet "b" (add_edge c5WitnessNet c5WitnessEdge).nodes = some m2 ∧
      "e1" ∈ m2.connected_edges) :=
  c5_amended_add_edge c5WitnessNet c5WitnessEdge
    { id := "a", lat := 0, lon := 0 } { id := "b", lat := 0, lon := 1 } rfl rfl

/-! ## Claim about scenario isolation -/

/-- Claim C1: whenever `apply_scenario` succeeds, the simulator's baseline
network after the call is the very value it was before — every node, edge,
counter, risk score and the raw crash log of the baseline are unchanged;
the scenario mutates only the deep copy. (The deep copy is a value copy in
the embedding, so the returned network shares no state with the
baseline by construction.) -/
theorem c1_baseline_isolated (sim : InterventionSimulator) (scenario_name : String)
    (scenario : InterventionScenario) (res : InterventionSimulator × StreetNetwork)
    (h : apply_scenario sim scenario_name scenario = some res) :
    res.1.baseline = sim.baseline := by
  unfold apply_scenario at h
  split at h
  · exact absurd h (by simp)
  · next modified hm =>
      rw [Option.some.injEq] at h
      rw [← h]

/-- Baseline network of the C1 witness: one node, one 45 mph edge. -/
def c1Net : StreetNetwork :=
  { nodes := [("a", { id := "a", lat := 33, lon := -111 })],
    edges := [("e1", { id := "e1", from_node := "a", to_node := "a", speed_limit_mph := 45 })],
    crashes := [] }

/-- The arterial-speed-reduction scenario used by the C1 witness: filter
`{'speed_limit_mph': 45}`, change `{'speed_limit_mph': 35,
'design_speed_mph': 37}`. -/
def c1Scenario : InterventionScenario :=
  { name := "Arterial Speed Reduction",
    description := "Reduce arterial speeds from 45+ to 35 mph maximum",
    modifications := [{ type := "speed_limit",
                        filter := [("speed_limit_mph", .scalar (.pyint 45))],
                        change := [("speed_limit_mph", .aint 35), ("design_speed_mph", .aint 37)] }],
    estimated_cost_per_mile := 100000,
    evidence_source := "FHWA",
    expected_crash_reduction_pct := 30 }

/-- The network the C1 witness scenario produces before rescoring: the edge
dropped to 35 mph. -/
def c1ModifiedNet : StreetNetwork :=
  { nodes := [("a", { id := "a", lat := 33, lon := -111 })],
    edges := [("e1", { id := "e1", from_node := "a", to_node := "a", speed_limit_mph := 35, design_speed_mph := 37 })],
    crashes := [] }

/-! ## Claim about the nearest-edge search -/

/-- Folding the nearest-edge step from a seed yields the minimum of the seed
and the list (first-encountered wins ties, via the strict `<` test). -/
theorem nearestFold_some_aux (l : List (ℝ × String × StreetEdge))
    (b : ℝ × String × StreetEdge) :
    ∃ c, l.foldl nearestStep (some b) = some c ∧ (c = b ∨ c ∈ l) ∧
      c.1 ≤ b.1 ∧ ∀ x ∈ l, c.1 ≤ x.1 := by
  induction l generalizing b with
  | nil => exact ⟨b, rfl, Or.inl rfl, le_refl _, by simp⟩
  | cons a tl ih =>
      rw [List.foldl_cons]
      by_cases hab : a.1 < b.1
      · have hstep : nearestStep (some b) a = some a := by
          simp only [nearestStep, if_pos hab]
        rw [hstep]
        obtain ⟨c, hc, hmem, hle, hall⟩ := ih a
        refine ⟨c, hc, ?_, hle.trans hab.le, ?_⟩
        · rcases hmem with h | h
          · exact Or.inr (h ▸ List.mem_cons_self a tl)
          · exact Or.inr (List.mem_cons_of_mem a h)
        · intro x hx
          rcases List.mem_cons.mp hx with h | h
          · exact h ▸ hle
          · exact hall x h
      · have hstep : nearestStep (some b) a = some b := by
          simp only [nearestStep, if_neg hab]
        rw [hstep]
        obtain ⟨c, hc, hmem, hle, hall⟩ := ih b
        refine ⟨c, hc, ?_, hle, ?_⟩
        · rcases hmem with h | h
          · exact Or.inl h
          · exact Or.inr (List.mem_cons_of_mem a h)
        · intro x hx
          rcases List.mem_cons.mp hx with h | h
          · exact h ▸ (hle.trans (not_lt.mp hab))
          · exact hall x h

/-- On a non-empty candidate list the loop returns a member achieving the
minimum distance. -/
theorem nearestFold_ne_nil (a : ℝ × String × StreetEdge)
    (tl : List (ℝ × String × StreetEdge)) :
    ∃ c, nearestFold (a :: tl) = some c ∧ c ∈ a :: tl ∧
      ∀ x ∈ a :: tl, c.1 ≤ x.1 := by
  obtain ⟨c, hc, hmem, hle, hall⟩ := nearestFold_some_aux tl a
  refine ⟨c, hc, ?_, ?_⟩
  · rcases hmem with h | h
    · exact h ▸ List.mem_cons_self a tl
    · exact List.mem_cons_of_mem a h
  · intro x hx
    rcases List.mem_cons.mp hx with h | h
    · exact h ▸ hle
    · exact hall x h

/-- `find_nearest_edge_entry` after a successful fold is the threshold
test on the winner. -/
theorem find_entry_of_fold (net : StreetNetwork) (la lo maxd : ℝ)
    (c : ℝ × String × StreetEdge)
    (hc : nearestFold (candidate_entries net la lo) = some c) :
    find_nearest_edge_entry net la lo maxd =
      if c.1 ≤ maxd then some c.2 else none := by
  unfold find_nearest_edge_entry
  rw [hc]

/-- With no candidate edges the search returns nothing
(`min_distance` stays infinite). -/
theorem find_entry_of_nil (net : StreetNetwork) (la lo maxd : ℝ)
    (h : candidate_entries net la lo = []) :
    find_nearest_edge_entry net la lo maxd = none := by
  unfold find_nearest_edge_entry
  rw [h]
  rfl

/-- Claim C6: `find_nearest_edge` considers exactly the edges whose two
endpoints resolve (the candidate entries, whose distances are the clamped
point-to-segment distances); a returned edge is a candidate within the
threshold achieving the minimum distance over all candidates; the result is
`none` exactly when there is no candidate or every candidate is beyond the
threshold; and on a single-candidate network the edge is returned iff its
distance is within the threshold. -/
theorem c6_find_nearest_edge (net : StreetNetwork) (la lo maxd : ℝ) :
    (∀ k e, find_nearest_edge_entry net la lo maxd = some (k, e) →
      ∃ d, (d, k, e) ∈ candidate_entries net la lo ∧ d ≤ maxd ∧
        ∀ c ∈ candidate_entries net la lo, d ≤ c.1) ∧
    (find_nearest_edge_entry net la lo maxd = none ↔
      (candidate_entries net la lo = [] ∨
        ∀ c ∈ candidate_entries net la lo, maxd < c.1)) ∧
    (∀ d k e, candidate_entries net la lo = [(d, k, e)] →
      (find_nearest_edge net la lo maxd = some e ↔ d ≤ maxd)) := by
  refine ⟨?_, ?_, ?_⟩
  · intro k e h
    cases hl : candidate_entries net la lo with
    | nil =>
        rw [find_entry_of_nil net la lo maxd hl] at h
        exact absurd h (by simp)
    | cons a tl =>
        obtain ⟨c, hc, hmem, hall⟩ := nearestFold_ne_nil a tl
        have hcc : nearestFold (candidate_entries net la lo) = some c := by
          rw [hl]
          exact hc
        rw [find_entry_of_fold net la lo maxd c hcc] at h
        by_cases hle : c.1 ≤ maxd
        · rw [if_pos hle] at h
          rw [Option.some.injEq] at h
          refine ⟨c.1, ?_, hle, hall⟩
          have hck : (c.1, k, e) = c := by
            rw [← h]
          rw [hck]
          exact hmem
        · rw [if_neg hle] at h
          exact absurd h (by simp)
  · constructor
    · intro h
      cases hl : candidate_entries net la lo with
      | nil => exact Or.inl rfl
      | cons a tl =>
          obtain ⟨c, hc, hmem, hall⟩ := nearestFold_ne_nil a tl
          have hcc : nearestFold (candidate_entries net la lo) = some c := by
            rw [hl]
            exact hc
          rw [find_entry_of_fold net la lo maxd c hcc] at h
          by_cases hle : c.1 ≤ maxd
          · rw [if_pos hle] at h
            exact absurd h (by simp)
          · refine Or.inr ?_
            intro x hx
            exact lt_of_lt_of_le (not_le.mp hle) (hall x hx)
    · intro h
      rcases h with h | h
      · exact find_entry_of_nil net la lo maxd h
      · cases hl : candidate_entries net la lo with
        | nil => exact find_entry_of_nil net la lo maxd hl
        | cons a tl =>
            obtain ⟨c, hc, hmem, hall⟩ := nearestFold_ne_nil a tl
            have hcc : nearestFold (candidate_entries net la lo) = some c := by
              rw [hl]
              exact hc
            have hmemc : c ∈ candidate_entries net la lo := by
              rw [hl]
              exact hmem
            rw [find_entry_of_fold net la lo maxd c hcc]
            rw [if_neg (not_le.mpr (h c hmemc))]
  · intro d k e hl
    have hfold : nearestFold (candidate_entries net la lo) = some (d, k, e) := by
      rw [hl]
      rfl
    unfold find_nearest_edge
    rw [find_entry_of_fold net la lo maxd (d, k, e) hfold]
    by_cases hle : d ≤ maxd
    · rw [if_pos hle]
      simp [hle]
    · rw [if_neg hle]
      simp [hle]

/-- One-edge network for the C6 witness. -/
def c6Net : StreetNetwork :=
  { nodes := [("a", { id := "a", lat := 0, lon := 0 }),
              ("b", { id := "b", lat := 0, lon := 1/1000 })],
    edges := [("e1", { id := "e1", from_node := "a", to_node := "b" })],
    crashes := [] }

/-- The single edge of `c6Net`. -/
def c6Edge : StreetEdge := { id := "e1", from_node := "a", to_node := "b" }

/-- Witness for C6 on the concrete one-edge network: the search at the
origin returns the edge exactly when its computed segment distance is
within 50 m. -/
theorem c6_witness :
    find_nearest_edge c6Net 0 0 50 = some c6Edge ↔
      point_to_segment_distance 0 0 (((0 : ℚ)) : ℝ) (((0 : ℚ)) : ℝ)
        (((0 : ℚ)) : ℝ) (((1/1000 : ℚ)) : ℝ) ≤ 50 :=
  (c6_find_nearest_edge c6Net 0 0 50).2.2 _ "e1" c6Edge rfl

/-- Witness for C1: a concrete successful scenario application on `c1Net`
whose result's baseline is `c1Net` itself. -/
theorem c1_witness :
    (({ baseline := c1Net,
        scenarios := dictInsert "arterial_speed_reduction"
          (calculate_all_risk_scores c1ModifiedNet) [] },
      calculate_all_risk_scores c1ModifiedNet) :
        InterventionSimulator × StreetNetwork).1.baseline =
      ({ baseline := c1Net } : InterventionSimulator).baseline :=
  c1_baseline_isolated { baseline := c1Net } "arterial_speed_reduction" c1Scenario
    ({ baseline := c1Net,
       scenarios := dictInsert "arterial_speed_reduction"
         (calculate_all_risk_scores c1ModifiedNet) [] },
     calculate_all_risk_scores c1ModifiedNet) rfl

/-! ## Claims about `add_crash` -/

/-- When either coordinate of the record is falsy, `add_crash` only appends
the record to the raw crash log: the whole network is otherwise unchanged,
no counter moves, and nothing is raised. -/
theorem add_crash_not_truthy (net : StreetNetwork) (crash : CrashData)
    (h : py_truthy (dictGet "lat" crash) = false ∨
      py_truthy (dictGet "lon" crash) = false) :
    add_crash net crash = some { net with crashes := net.crashes ++ [crash] } := by
  simp only [add_crash]
  rcases h with h | h <;> simp [h]

/-- Claim C10: a crash whose `lat` or `lon` is absent, `None`, or exactly
zero (int or float) is logged but never mapped to an edge — Python
truthiness treats the in-bounds coordinate `0.0` like a missing one. -/
theorem c10_zero_coordinate_is_missing (net : StreetNetwork) (crash : CrashData)
    (h : (dictGet "lat" crash = none ∨ dictGet "lat" crash = some PyScalar.pynone ∨
          dictGet "lat" crash = some (PyScalar.pyint 0) ∨
          dictGet "lat" crash = some (PyScalar.pyfloat 0)) ∨
         (dictGet "lon" crash = none ∨ dictGet "lon" crash = some PyScalar.pynone ∨
          dictGet "lon" crash = some (PyScalar.pyint 0) ∨
          dictGet "lon" crash = some (PyScalar.pyfloat 0))) :
    add_crash net crash = some { net with crashes := net.crashes ++ [crash] } := by
  apply add_crash_not_truthy
  rcases h with (h | h | h | h) | (h | h | h | h)
  · exact Or.inl (by rw [h]; rfl)
  · exact Or.inl (by rw [h]; rfl)
  · exact Or.inl (by rw [h]; rfl)
  · exact Or.inl (by rw [h]; rfl)
  · exact Or.inr (by rw [h]; rfl)
  · exact Or.inr (by rw [h]; rfl)
  · exact Or.inr (by rw [h]; rfl)
  · exact Or.inr (by rw [h]; rfl)

/-- A crash record at latitude exactly 0.0 (a valid coordinate on the
equator) with a normal longitude. -/
def c10Crash : CrashData :=
  [("lat", PyScalar.pyfloat 0), ("lon", PyScalar.pyfloat (-110))]

/-- Witness for C10: the equator crash is only logged. -/
theorem c10_witness :
    add_crash emptyNetwork c10Crash =
      some { emptyNetwork with crashes := emptyNetwork.crashes ++ [c10Crash] } :=
  c10_zero_coordinate_is_missing emptyNetwork c10Crash
    (Or.inl (Or.inr (Or.inr (Or.inr rfl))))

/-- Claim C7 as amended: a crash with falsy coordinates, or with (any,
even out-of-bounds) numeric coordinates that are farther than 50 m from
every edge, is appended to the raw log and increments no counter, without
error; `add_crash` performs no latitude/longitude bounds validation at all. -/
theorem c7_amended_add_crash (net : StreetNetwork) (crash : CrashData) :
    (py_truthy (dictGet "lat" crash) = false ∨
        py_truthy (dictGet "lon" crash) = false →
      add_crash net crash = some { net with crashes := net.crashes ++ [crash] }) ∧
    (∀ la lo : ℚ,
      (dictGet "lat" crash).bind pyToQ = some la →
      (dictGet "lon" crash).bind pyToQ = some lo →
      find_nearest_edge_entry { net with crashes := net.crashes ++ [crash] }
          (la : ℝ) (lo : ℝ) 50 = none →
      add_crash net crash = some { net with crashes := net.crashes ++ [crash] }) := by
  constructor
  · exact add_crash_not_truthy net crash
  · intro la lo hla hlo hfind
    simp only [add_crash]
    by_cases ht : py_truthy (dictGet "lat" crash) ∧ py_truthy (dictGet "lon" crash)
    · rw [if_pos ht, hla, hlo]
      show (match find_nearest_edge_entry { net with crashes := net.crashes ++ [crash] } (la : ℝ) (lo : ℝ) 50 with
        | some (k, _) => some (bumpEdge { net with crashes := net.crashes ++ [crash] } k (py_truthy (some ((dictGet "fatal" crash).getD (PyScalar.pybool false)))))
        | none => some { net with crashes := net.crashes ++ [crash] }) = some { net with crashes := net.crashes ++ [crash] }
      rw [hfind]
    · rw [if_neg ht]

/-- A crash record with no coordinate keys at all. -/
def c7NoCoordCrash : CrashData := [("fatal", PyScalar.pybool true)]

/-- Witness for the amended C7: the coordinate-free crash is only logged. -/
theorem c7_amended_witness :
    add_crash emptyNetwork c7NoCoordCrash =
      some { emptyNetwork with crashes := emptyNetwork.crashes ++ [c7NoCoordCrash] } :=
  (c7_amended_add_crash emptyNetwork c7NoCoordCrash).1 (Or.inl rfl)

/-- The distance from a point to a degenerate segment both of whose
endpoints are that same point is zero, whatever the latitude scaling. -/
theorem dist_same_point (px py : ℝ) :
    point_to_segment_distance px py px py px py = 0 := by
  simp only [point_to_segment_distance]
  rw [if_pos ⟨by ring, by ring⟩]
  simp [sub_self]

/-- A crash at latitude 1, longitude 200 — longitude 200 is outside the
valid range [-180, 180]. -/
def c7Crash : CrashData := [("lat", PyScalar.pyfloat 1), ("lon", PyScalar.pyfloat 200)]

/-- A node placed at the same invalid coordinates. -/
def c7Node : IntersectionNode := { id := "a", lat := 1, lon := 200 }

/-- A degenerate edge whose two endpoints are `c7Node`. -/
def c7Edge : StreetEdge := { id := "e1", from_node := "a", to_node := "a" }

/-- One-edge network containing the invalid-coordinate node. -/
def c7Net : StreetNetwork :=
  { nodes := [("a", c7Node)], edges := [("e1", c7Edge)], crashes := [] }

/-- `c7Net` with the crash already appended to the raw log. -/
def c7Net1 : StreetNetwork :=
  { nodes := [("a", c7Node)], edges := [("e1", c7Edge)], crashes := [c7Crash] }

/-- Claim C7, counterexample to the bounds clause: the crash at longitude
200 — outside the valid longitude bounds — lands within 50 m of `c7Edge`,
and `add_crash` increments that edge's crash counter to 1: invalid bounds
are not detected, contradicting the claim that such records increment no
edge's counter. -/
theorem c7_counterexample :
    ((add_crash c7Net c7Crash).bind
        fun n => (dictGet "e1" n.edges).map StreetEdge.crash_count) = some 1 ∧
    ¬((200 : ℚ) ≤ 180) := by
  refine ⟨?_, by norm_num⟩
  have hcand : candidate_entries c7Net1 (((1:ℚ)) : ℝ) (((200:ℚ)) : ℝ) =
      [(point_to_segment_distance (((1:ℚ)) : ℝ) (((200:ℚ)) : ℝ) (((1:ℚ)) : ℝ)
          (((200:ℚ)) : ℝ) (((1:ℚ)) : ℝ) (((200:ℚ)) : ℝ), ("e1", c7Edge))] := rfl
  have hfold : nearestFold (candidate_entries c7Net1 (((1:ℚ)) : ℝ) (((200:ℚ)) : ℝ)) =
      some (point_to_segment_distance (((1:ℚ)) : ℝ) (((200:ℚ)) : ℝ) (((1:ℚ)) : ℝ)
          (((200:ℚ)) : ℝ) (((1:ℚ)) : ℝ) (((200:ℚ)) : ℝ), ("e1", c7Edge)) := by
    rw [hcand]
    rfl
  have hfind : find_nearest_edge_entry c7Net1 (((1:ℚ)) : ℝ) (((200:ℚ)) : ℝ) 50 =
      some ("e1", c7Edge) := by
    rw [find_entry_of_fold _ _ _ _ _ hfold]
    rw [dist_same_point]
    norm_num
  have hstep : add_crash c7Net c7Crash =
      (match find_nearest_edge_entry c7Net1 (((1:ℚ)) : ℝ) (((200:ℚ)) : ℝ) 50 with
        | some (k, _) => some (bumpEdge c7Net1 k false)
        | none => some c7Net1) := rfl
  rw [hstep, hfind]
  rfl

end PedSafety
